import Mathlib

/-!
# WeatherChannel — shallow embedding and verification

A shallow embedding in Lean 4 of the 90s Weather Channel video generator
(`weather_api.py`, `video_renderer.py`, `generate_weather.py`).

Modelling conventions:
* PIL drawing calls are reified as a list of abstract `DrawOp` primitives in
  call order; two runs produce pixel-identical frames exactly when they produce
  the same op list on the same surface.
* Library-dependent quantities that no claim's truth depends on are supplied by
  an explicit environment `RenderEnv` / `TimeEnv`: text metrics
  (`draw.textlength` for a font size), the per-scanline gradient colors (the
  source computes them with float arithmetic from fixed endpoints), the
  formatted wall-clock strings of `datetime.now()`, and the `%a` weekday
  abbreviation of a date.  Each is a pure function of its shown arguments, so
  determinism (C9) is stated relative to a fixed environment.
* Temperatures reaching the renderer are modelled as integers (the source
  rounds floats to ints before rendering; no claim concerns numeric values).
* Machine floats in the sun-ray trigonometry are replaced by the table of
  integer offsets that `int(30*cos θ)` / `int(40*cos θ)` evaluate to at the
  eight 45° angles — these evaluations are exact and far from integer
  boundaries, and no claim depends on them.
-/

namespace WeatherChannel

/-- A color value exactly as the source passes it to PIL: either a raw hex
string (the icon renderer) or an RGB triple (everything routed through
`hex_to_rgb`). -/
inductive Color where
  | hex (s : String)
  | rgb (r g b : Nat)
deriving DecidableEq, Repr

/-- One primitive PIL draw call, in the argument form the source uses. -/
inductive DrawOp where
  | ellipse (x0 y0 x1 y1 : Int) (fill : Color)
  | line (points : List (Int × Int)) (fill : Color) (width : Nat)
  | rect (x0 y0 x1 y1 : Int) (fill : Option Color) (outline : Option Color) (width : Nat)
  | text (x y : Int) (s : String) (fill : Color) (fontSize : Nat)
deriving DecidableEq, Repr

/-- Video specs (`video_renderer.py` module constants). -/
def WIDTH : Nat := 640

def HEIGHT : Nat := 480

def FPS : Nat := 30

def DURATION : Nat := 20

/-- `COLORS` palette from `video_renderer.py`. -/
def COLORS : List (String × String) :=
  [ ("bg_dark", "#1a237e"),
    ("bg_light", "#3949ab"),
    ("card_fill", "#5c6bc0"),
    ("card_border", "#1a237e"),
    ("header_orange", "#ff6f00"),
    ("text_yellow", "#ffd54f"),
    ("text_white", "#ffffff"),
    ("text_gray", "#b0bec5"),
    ("bar_blue", "#283593") ]

/-- `COLORS[name]` — the source indexes the dict directly and every key used
exists, so a missing key (never exercised) yields a default. -/
def colorOf (name : String) : String :=
  ((COLORS.find? (fun p => p.1 == name)).map Prod.snd).getD ""

/-- Value of one hex digit. -/
def hexDigitVal (c : Char) : Nat :=
  if ('0' ≤ c ∧ c ≤ '9') then c.toNat - '0'.toNat
  else if ('a' ≤ c ∧ c ≤ 'f') then c.toNat - 'a'.toNat + 10
  else if ('A' ≤ c ∧ c ≤ 'F') then c.toNat - 'A'.toNat + 10
  else 0

/-- Two hex digits to a byte. -/
def hexPair (cs : List Char) : Nat :=
  match cs with
  | c0 :: c1 :: _ => 16 * hexDigitVal c0 + hexDigitVal c1
  | _ => 0

/-- `hex_to_rgb` from `video_renderer.py`: strip leading `#`, parse the three
byte pairs at offsets (0, 2, 4). -/
def hex_to_rgb (hexColor : String) : Color :=
  let h := hexColor.toList.dropWhile (fun c => c = '#')
  Color.rgb (hexPair h) (hexPair (h.drop 2)) (hexPair (h.drop 4))

/-- Sun-ray endpoint offsets: `(int(30*cos θ), int(30*sin θ), int(40*cos θ),
int(40*sin θ))` for `θ = radians(angle)`, `angle ∈ {0,45,…,315}`, as the
source's float arithmetic evaluates them (Python `int` truncates toward 0). -/
def sunRayOffsets : List (Int × Int × Int × Int) :=
  [ (30, 0, 40, 0),
    (21, 21, 28, 28),
    (0, 30, 0, 40),
    (-21, 21, -28, 28),
    (-30, 0, -40, 0),
    (-21, -21, -28, -28),
    (0, -30, 0, -40),
    (21, -21, 28, -28) ]

/-- `range(-20, 25, 15)` = `[-20, -5, 10]`, the raindrop / snowflake x-offsets. -/
def dropOffsets : List Int := [-20, -5, 10]

/-- `draw_weather_icon(draw, cx, cy, icon_type)` from `video_renderer.py`:
the chain of `if icon_type == …` branches; a kind matching no branch draws
nothing at all. -/
def draw_weather_icon (cx cy : Int) (icon_type : String) : List DrawOp :=
  if icon_type == "sun" then
    [DrawOp.ellipse (cx-25) (cy-25) (cx+25) (cy+25) (Color.hex "#ffd54f")]
      ++ sunRayOffsets.map (fun off =>
           DrawOp.line [(cx + off.1, cy + off.2.1), (cx + off.2.2.1, cy + off.2.2.2)]
             (Color.hex "#ffd54f") 3)
  else if icon_type == "clouds" then
    [ DrawOp.ellipse (cx-35) (cy-10) (cx-5) (cy+20) (Color.hex "#9e9e9e"),
      DrawOp.ellipse (cx-20) (cy-20) (cx+20) (cy+15) (Color.hex "#bdbdbd"),
      DrawOp.ellipse cx (cy-10) (cx+35) (cy+20) (Color.hex "#9e9e9e") ]
  else if icon_type == "rain" then
    [ DrawOp.ellipse (cx-30) (cy-25) cx cy (Color.hex "#9e9e9e"),
      DrawOp.ellipse (cx-15) (cy-30) (cx+20) (cy-5) (Color.hex "#bdbdbd"),
      DrawOp.ellipse (cx+5) (cy-25) (cx+35) cy (Color.hex "#9e9e9e") ]
      ++ dropOffsets.map (fun i =>
           DrawOp.line [(cx+i, cy+10), (cx+i-5, cy+30)] (Color.hex "#64b5f6") 2)
  else if icon_type == "thunderstorm" then
    [ DrawOp.ellipse (cx-30) (cy-25) cx cy (Color.hex "#616161"),
      DrawOp.ellipse (cx-15) (cy-30) (cx+20) (cy-5) (Color.hex "#757575"),
      DrawOp.ellipse (cx+5) (cy-25) (cx+35) cy (Color.hex "#616161"),
      DrawOp.line [(cx, cy+5), (cx-8, cy+20)] (Color.hex "#ffeb3b") 3,
      DrawOp.line [(cx-8, cy+20), (cx, cy+18)] (Color.hex "#ffeb3b") 3,
      DrawOp.line [(cx, cy+18), (cx-5, cy+35)] (Color.hex "#ffeb3b") 3 ]
      ++ ([-15, 15] : List Int).map (fun i =>
           DrawOp.line [(cx+i, cy+10), (cx+i-3, cy+25)] (Color.hex "#64b5f6") 2)
  else if icon_type == "snow" then
    [ DrawOp.ellipse (cx-30) (cy-25) cx cy (Color.hex "#bdbdbd"),
      DrawOp.ellipse (cx-15) (cy-30) (cx+20) (cy-5) (Color.hex "#e0e0e0"),
      DrawOp.ellipse (cx+5) (cy-25) (cx+35) cy (Color.hex "#bdbdbd") ]
      ++ dropOffsets.flatMap (fun i =>
           [ DrawOp.ellipse (cx+i-3) (cy+15) (cx+i+3) (cy+21) (Color.hex "#ffffff"),
             DrawOp.ellipse (cx+i-3) (cy+28) (cx+i+3) (cy+34) (Color.hex "#ffffff") ])
  else
    []

/-- The fixed icon-kind enum of the spec. -/
def iconEnum : List String := ["sun", "clouds", "rain", "thunderstorm", "snow"]

/-- `CONDITION_ICONS` from `weather_api.py`. -/
def CONDITION_ICONS : List (String × String) :=
  [ ("Clear", "sun"),
    ("Clouds", "clouds"),
    ("Rain", "rain"),
    ("Drizzle", "rain"),
    ("Thunderstorm", "thunderstorm"),
    ("Snow", "snow"),
    ("Mist", "clouds"),
    ("Fog", "clouds"),
    ("Haze", "clouds") ]

/-- `get_icon_name(condition)` from `weather_api.py`:
`CONDITION_ICONS.get(condition, "clouds")`. -/
def get_icon_name (condition : String) : String :=
  ((CONDITION_ICONS.find? (fun p => p.1 == condition)).map Prod.snd).getD "clouds"

/-- `get_description(condition)` from `weather_api.py`. -/
def get_description (condition : String) : String :=
  let descriptions : List (String × String) :=
    [ ("Clear", "Sunny"),
      ("Clouds", "Cloudy"),
      ("Rain", "Rainy"),
      ("Drizzle", "Light Rain"),
      ("Thunderstorm", "T'storms"),
      ("Snow", "Snow"),
      ("Mist", "Misty"),
      ("Fog", "Foggy"),
      ("Haze", "Hazy") ]
  ((descriptions.find? (fun p => p.1 == condition)).map Prod.snd).getD condition

/-! ## Data model -/

/-- One day's entry of a processed forecast (`weather_api.process_forecast`
output items; consumed by the renderer). -/
structure DayForecast where
  day_name : String
  high : Int
  low : Int
  condition : String
  icon : String
  description : String
deriving DecidableEq, Repr

/-- The processed forecast dict returned by `weather_api.py`. -/
structure Forecast where
  city : String
  region : String
  units : String
  unit_symbol : String
  timestamp : String
  forecasts : List DayForecast
deriving DecidableEq, Repr

/-- One entry of the nearby-weather list (`fetch_nearby_weather` output). -/
structure NearbyCondition where
  name : String
  lat : Rat
  lon : Rat
  temp : Int
  condition : String
  icon : String
deriving DecidableEq, Repr

/-- Environment for frame composition: text metrics of the installed fonts
(`draw.textlength` with `get_font size`), the scanline colors the float
interpolation of `draw_gradient_bg` produces, and the formatted wall-clock
strings `datetime.now()` yields in `draw_header`.  Each field is a pure
function of its shown arguments; fixing the environment fixes the fonts,
the palette endpoints and the wall-clock instant. -/
structure RenderEnv where
  textLen : String → Nat → Int
  gradColor : Nat → Color
  timeStr : String
  dateStr : String

/-- Python `//` on the integers reaching layout arithmetic (floor division). -/
def floordiv (a b : Int) : Int := Int.fdiv a b

/-! ## Frame composer (`video_renderer.py`) -/

/-- `draw_gradient_bg(draw, width, height)`: one horizontal line per scanline
`y ∈ range(height)`, colored by the float interpolation (supplied by the
environment); PIL line width defaults to 0. -/
def draw_gradient_bg (env : RenderEnv) (width height : Nat) : List DrawOp :=
  (List.range height).map (fun (y : Nat) =>
    DrawOp.line [((0 : Int), (y : Int)), ((width : Int), (y : Int))] (env.gradColor y) 0)

/-- `draw_header(draw, city, region)`. -/
def draw_header (env : RenderEnv) (city region : String) : List DrawOp :=
  [ DrawOp.rect 0 0 (WIDTH : Int) 50 (some (hex_to_rgb (colorOf "header_orange"))) none 1,
    DrawOp.rect 10 8 120 42 (some (hex_to_rgb (colorOf "bg_dark")))
      (some (hex_to_rgb (colorOf "text_white"))) 2,
    DrawOp.text 18 10 "THE" (hex_to_rgb (colorOf "text_white")) 8,
    DrawOp.text 18 18 "WEATHER" (hex_to_rgb (colorOf "text_white")) 8,
    DrawOp.text 18 28 "CHANNEL" (hex_to_rgb (colorOf "text_white")) 8,
    DrawOp.text 140 8 (city ++ " " ++ region) (hex_to_rgb (colorOf "text_white")) 24,
    DrawOp.text 140 32 "Extended Forecast" (hex_to_rgb (colorOf "text_yellow")) 12,
    DrawOp.text 520 10 env.timeStr (hex_to_rgb (colorOf "text_white")) 14,
    DrawOp.text 520 28 env.dateStr (hex_to_rgb (colorOf "text_white")) 14 ]

/-- `draw_forecast_card(draw, x, y, day_name, icon, description, high, low, unit)`. -/
def draw_forecast_card (env : RenderEnv) (x y : Int) (day_name icon description : String)
    (high low : Int) (_unit : String) : List DrawOp :=
  let card_width : Int := 180
  let card_height : Int := 280
  [ DrawOp.rect x y (x + card_width) (y + card_height)
      (some (hex_to_rgb (colorOf "card_fill"))) (some (hex_to_rgb (colorOf "card_border"))) 3,
    DrawOp.text (x + floordiv (card_width - env.textLen day_name 28) 2) (y + 10)
      day_name (hex_to_rgb (colorOf "text_yellow")) 28 ]
  ++ draw_weather_icon (x + floordiv card_width 2) ((y + 50) + 40) icon
  ++ [ DrawOp.text (x + floordiv (card_width - env.textLen description 16) 2) (y + 150)
         description (hex_to_rgb (colorOf "text_white")) 16,
       DrawOp.text (x + 30) (y + 190) "Lo" (hex_to_rgb (colorOf "text_gray")) 14,
       DrawOp.text (x + 110) (y + 190) "Hi" (hex_to_rgb (colorOf "text_gray")) 14,
       DrawOp.text (x + 20) (y + 210) (toString low) (hex_to_rgb (colorOf "text_white")) 36,
       DrawOp.text (x + 100) (y + 210) (toString high) (hex_to_rgb (colorOf "text_white")) 36 ]

/-- `draw_bottom_bar(draw, text)`. -/
def draw_bottom_bar (env : RenderEnv) (text : String) : List DrawOp :=
  [ DrawOp.rect 0 ((HEIGHT : Int) - 35) (WIDTH : Int) (HEIGHT : Int)
      (some (hex_to_rgb (colorOf "bar_blue"))) none 1,
    DrawOp.text (floordiv ((WIDTH : Int) - env.textLen text 16) 2) ((HEIGHT : Int) - 28)
      text (hex_to_rgb (colorOf "text_white")) 16 ]

/-- The card-drawing loop of `generate_forecast_frame`:
`for i, day in enumerate(forecast["forecasts"][:3])`, each card at
`(card_start_x + i * card_spacing, card_y)` with `card_start_x = 30`,
`card_y = 70`, `card_spacing = 200`. -/
def forecastCardCalls (fc : Forecast) : List (Int × Int × DayForecast) :=
  (fc.forecasts.take 3).enum.map (fun p => ((30 + (p.1 : Int) * 200, 70, p.2)))

/-- `generate_forecast_frame(forecast)` as the op list painted onto the fresh
640×480 canvas. -/
def generate_forecast_frame (env : RenderEnv) (fc : Forecast) : List DrawOp :=
  draw_gradient_bg env WIDTH HEIGHT
    ++ draw_header env fc.city fc.region
    ++ (forecastCardCalls fc).flatMap (fun c =>
         draw_forecast_card env c.1 c.2.1 c.2.2.day_name c.2.2.icon c.2.2.description
           c.2.2.high c.2.2.low fc.unit_symbol)
    ++ draw_bottom_bar env "BAROMETRIC PRESSURE: 30.03 IN."

/-- The static name→screen-position table of `generate_map_frame`. -/
def mapPositions (city_key : String) : List (String × Int × Int) :=
  if city_key == "austin" then
    [ ("Austin", 280, 300),
      ("Houston", 320, 320),
      ("Dallas", 290, 250),
      ("San Antonio", 260, 320),
      ("El Paso", 150, 290) ]
  else
    [ ("London", 200, 180),
      ("Paris", 220, 240),
      ("Berlin", 350, 200),
      ("Amsterdam", 250, 170),
      ("Brussels", 240, 210) ]

/-- `highlight_idx = frame_num % (len(nearby) + 1)`. -/
def highlight_idx (frame_num nearbyLen : Nat) : Nat :=
  frame_num % (nearbyLen + 1)

/-- `is_highlighted = (i == highlight_idx - 1)` — Python integer arithmetic,
so at `highlight_idx = 0` the comparison is against `-1` and no index matches. -/
def is_highlighted (i frame_num nearbyLen : Nat) : Bool :=
  (i : Int) == (highlight_idx frame_num nearbyLen : Int) - 1

/-- Body of the `for i, city_data in enumerate(nearby)` loop of
`generate_map_frame`: entries whose name is absent from the position table are
skipped silently. -/
def mapEntryOps (_env : RenderEnv) (city_key : String) (frame_num nearbyLen : Nat)
    (p : Nat × NearbyCondition) : List DrawOp :=
  match (mapPositions city_key).find? (fun q => q.1 == p.2.name) with
  | none => []
  | some q =>
    let x := q.2.1
    let y := q.2.2
    let colorName := if is_highlighted p.1 frame_num nearbyLen then "text_yellow" else "text_white"
    draw_weather_icon x y p.2.icon
      ++ [ DrawOp.text (x - 20) (y + 45) p.2.name (hex_to_rgb (colorOf colorName)) 12,
           DrawOp.text (x - 10) (y + 60) (toString p.2.temp ++ "°")
             (hex_to_rgb (colorOf colorName)) 16 ]

/-- The region outline and title of `generate_map_frame`. -/
def mapRegionOps (city_key : String) : List DrawOp :=
  if city_key == "austin" then
    [ DrawOp.rect 50 100 590 380 none (some (hex_to_rgb (colorOf "text_gray"))) 2,
      DrawOp.text 300 90 "UNITED STATES" (hex_to_rgb (colorOf "text_yellow")) 20 ]
  else
    [ DrawOp.rect 50 100 590 380 none (some (hex_to_rgb (colorOf "text_gray"))) 2,
      DrawOp.text 280 90 "WESTERN EUROPE" (hex_to_rgb (colorOf "text_yellow")) 20 ]

/-- `generate_map_frame(city_key, nearby, frame_num)`. -/
def generate_map_frame (env : RenderEnv) (city_key : String) (nearby : List NearbyCondition)
    (frame_num : Nat) : List DrawOp :=
  draw_gradient_bg env WIDTH HEIGHT
    ++ mapRegionOps city_key
    ++ nearby.enum.flatMap (mapEntryOps env city_key frame_num nearby.length)
    ++ draw_bottom_bar env "REGIONAL CONDITIONS"

/-! ## Sequencer / encoder adapter (`generate_video`) -/

/-- Python `f"{i:03d}"`. -/
def pad3 (n : Nat) : String :=
  let s := toString n
  if s.length ≥ 3 then s else String.mk (List.replicate (3 - s.length) '0') ++ s

/-- `"ATXweather.mp4" if city_key == "austin" else "LDNweather.mp4"`. -/
def output_name (city_key : String) : String :=
  if city_key == "austin" then "ATXweather.mp4" else "LDNweather.mp4"

/-- The map-frame file names `map_000.png … map_009.png` written by the
`for i in range(10)` loop. -/
def map_frame_names : List String :=
  (List.range 10).map (fun i => "map_" ++ pad3 i ++ ".png")

/-- One line pair of the ffmpeg concat file: a file path and an optional
`duration` directive (the final repeated frame has none). -/
structure PlanEntry where
  file : String
  duration : Option Nat
deriving DecidableEq, Repr

/-- The concat edit list `generate_video` writes: the forecast frame with
`duration 10`, each map frame with `duration 1`, then `map_frames[-1]` again
with no duration. -/
def concat_entries : List PlanEntry :=
  ⟨"forecast.png", some 10⟩
    :: map_frame_names.map (fun f => (⟨f, some 1⟩ : PlanEntry))
    ++ [⟨map_frame_names.getLastD "", none⟩]

/-- Contents of one file in the per-run temp directory. -/
inductive FileData where
  | image (ops : List DrawOp)
  | plan (entries : List PlanEntry)
deriving DecidableEq, Repr

/-- End-of-run state of the per-run temp directory `output/temp_{city_key}`:
`none` if the directory has been removed, otherwise the files it holds. -/
structure FSState where
  tempDirFiles : Option (List (String × FileData))
deriving DecidableEq, Repr

/-- Exit behavior of the external `ffmpeg` invocation. -/
inductive EncResult where
  | ok
  | fail (stderr : String)
deriving DecidableEq, Repr

/-- `generate_video(city_key, forecast, nearby)`: composes and persists the
frames and the concat file into the temp directory, invokes ffmpeg, and — only
on the success path — reaches the `shutil.rmtree(temp_dir)` line.  On
`CalledProcessError` the handler prints and re-`raise`s, so the function exits
before the cleanup line and the temp directory survives with all its files.
Returns the raised/returned value together with the final temp-dir state. -/
def generate_video (env : RenderEnv) (city_key : String) (fc : Forecast)
    (nearby : List NearbyCondition) (enc : EncResult) : Except String String × FSState :=
  let files : List (String × FileData) :=
    ("forecast.png", FileData.image (generate_forecast_frame env fc))
      :: (List.range 10).map (fun i =>
           ("map_" ++ pad3 i ++ ".png", FileData.image (generate_map_frame env city_key nearby i)))
      ++ [("concat.txt", FileData.plan concat_entries)]
  match enc with
  | EncResult.ok => (Except.ok (output_name city_key), ⟨none⟩)
  | EncResult.fail e => (Except.error ("ffmpeg error: " ++ e), ⟨some files⟩)

/-! ## Weather API (`weather_api.py`) -/

/-- One nearby-city configuration entry. -/
structure NearbyCity where
  name : String
  lat : Rat
  lon : Rat
deriving DecidableEq, Repr

/-- One city configuration entry of the `CITIES` dict. -/
structure City where
  lat : Rat
  lon : Rat
  name : String
  region : String
  units : String
  nearby : List NearbyCity
deriving DecidableEq, Repr

/-- The `CITIES` configuration dict of `weather_api.py`. -/
def CITIES : List (String × City) :=
  [ ("austin",
     { lat := 30.2672, lon := -97.7431, name := "Austin", region := "Metro",
       units := "imperial",
       nearby :=
         [ { name := "Houston", lat := 29.7604, lon := -95.3698 },
           { name := "Dallas", lat := 32.7767, lon := -96.7970 },
           { name := "San Antonio", lat := 29.4241, lon := -98.4936 },
           { name := "El Paso", lat := 31.7619, lon := -106.4850 } ] }),
    ("london",
     { lat := 51.5074, lon := -0.1278, name := "London", region := "Metro",
       units := "metric",
       nearby :=
         [ { name := "Paris", lat := 48.8566, lon := 2.3522 },
           { name := "Berlin", lat := 52.5200, lon := 13.4050 },
           { name := "Amsterdam", lat := 52.3676, lon := 4.9041 },
           { name := "Brussels", lat := 50.8503, lon := 4.3517 } ] }) ]

/-- A Gregorian calendar date, as `datetime` carries it (the claims touch only
the date fields, so the time-of-day fields are not modelled). -/
structure Date where
  year : Nat
  month : Nat
  day : Nat
deriving DecidableEq, Repr

/-- Gregorian leap-year rule, as Python's `datetime` implements it. -/
def isLeapYear (y : Nat) : Bool :=
  y % 4 == 0 && (y % 100 != 0 || y % 400 == 0)

/-- Days in a Gregorian month. -/
def daysInMonth (y m : Nat) : Nat :=
  if m == 2 then (if isLeapYear y then 29 else 28)
  else if m == 4 || m == 6 || m == 9 || m == 11 then 30
  else 31

/-- The date invariant `datetime` maintains for its own values. -/
def ValidDate (d : Date) : Prop :=
  1 ≤ d.month ∧ d.month ≤ 12 ∧ 1 ≤ d.day ∧ d.day ≤ daysInMonth d.year d.month

instance (d : Date) : Decidable (ValidDate d) := by
  unfold ValidDate
  infer_instance

/-- `now.replace(day=newDay)`: `datetime.replace` validates the new day
against the instance's year and month and raises `ValueError` when it is out
of range. -/
def date_replace_day (d : Date) (newDay : Nat) : Except String Date :=
  if 1 ≤ newDay ∧ newDay ≤ daysInMonth d.year d.month then
    Except.ok { d with day := newDay }
  else
    Except.error "ValueError: day is out of range for month"

/-- Wall-clock environment: the current date, the `%a` weekday abbreviation
(upper-cased) the standard library renders for a date, and
`datetime.now().isoformat()`.  `dayAbbrev` is a pure function of the date,
abstracting the library's weekday computation, on which no claim depends. -/
structure TimeEnv where
  now : Date
  dayAbbrev : Date → String
  nowIso : String

/-- The `DayForecast` the loop body of `get_fallback_forecast` appends for a
day. -/
def fallbackDayEntry (city : City) (t : TimeEnv) (day : Date) : DayForecast :=
  { day_name := t.dayAbbrev day,
    high := if city.units == "imperial" then (75 : Int) else 24,
    low := if city.units == "imperial" then (55 : Int) else 13,
    condition := "Clouds",
    icon := "clouds",
    description := "Cloudy" }

/-- `get_fallback_forecast(city)` from `weather_api.py`: the loop
`for i in range(3): day = now.replace(day=now.day + i)`, unrolled to its three
iterations — `ValueError` propagates out of the function at the first `i` for
which `now.day + i` is not a day of the current month. -/
def get_fallback_forecast (city : City) (t : TimeEnv) : Except String Forecast := do
  let day0 ← date_replace_day t.now (t.now.day + 0)
  let day1 ← date_replace_day t.now (t.now.day + 1)
  let day2 ← date_replace_day t.now (t.now.day + 2)
  pure { city := city.name,
         region := city.region,
         units := city.units,
         unit_symbol := if city.units == "imperial" then "°F" else "°C",
         timestamp := t.nowIso,
         forecasts :=
           [fallbackDayEntry city t day0, fallbackDayEntry city t day1,
            fallbackDayEntry city t day2] }

/-- One item of the raw API response list: `item["dt"]` decoded by
`datetime.fromtimestamp` (modelled as the decoded date), `item["main"]["temp"]`
(rounding of the float is modelled as the integer it yields) and
`item["weather"][0]["main"]`. -/
structure ApiItem where
  dt : Date
  temp : Int
  weatherMain : String
deriving DecidableEq, Repr

/-- The raw API response: `data.get("list", [])`. -/
structure ApiData where
  list : List ApiItem
deriving DecidableEq, Repr

/-- Numeric key with the same ordering as the `"%Y-%m-%d"` day-key strings
(lexicographic on zero-padded decimal fields = numeric on this encoding). -/
def dateKey (d : Date) : Nat :=
  d.year * 10000 + d.month * 100 + d.day

/-- Deduplication keeping first occurrences, the key order a Python dict
preserves. -/
def dedupFirst {α : Type} [DecidableEq α] (l : List α) : List α :=
  l.foldl (fun acc k => if k ∈ acc then acc else acc ++ [k]) []

/-- Insertion into a ≤-sorted list. -/
def insertSorted (x : Nat) : List Nat → List Nat
  | [] => [x]
  | a :: rest => if x ≤ a then x :: a :: rest else a :: insertSorted x rest

/-- `sorted(...)` on the day keys. -/
def sortNat (l : List Nat) : List Nat :=
  l.foldr insertSorted []

/-- `max(set(conditions), key=conditions.count)`: an element of maximal count.
CPython iterates the set in hash order, which is unspecified; the model uses
first-occurrence order with Python `max`'s keep-first-maximum rule.  No claim
depends on the tie-breaking choice. -/
def mostCommon (l : List String) : String :=
  match dedupFirst l with
  | [] => ""
  | c0 :: rest => rest.foldl (fun best c => if l.count c > l.count best then c else best) c0

/-- `process_forecast(data, city)` from `weather_api.py`: group items by day
key in insertion order, take the first 3 sorted day keys, and build one
`DayForecast` per day (day name from the group's first item, high/low from the
group's temps, most common condition, icon and description via the lookup
tables). -/
def process_forecast (t : TimeEnv) (data : ApiData) (city : City) : Forecast :=
  let items := data.list
  let keys := dedupFirst (items.map (fun it => dateKey it.dt))
  let sortedKeys := (sortNat keys).take 3
  let forecasts := sortedKeys.map (fun k =>
    let group := items.filter (fun it => dateKey it.dt == k)
    let temps := group.map (fun it => it.temp)
    let conditions := group.map (fun it => it.weatherMain)
    let dayName := match group.head? with
      | some it => t.dayAbbrev it.dt
      | none => ""
    let condition := mostCommon conditions
    { day_name := dayName,
      high := temps.foldl max (temps.headD 0),
      low := temps.foldl min (temps.headD 0),
      condition := condition,
      icon := get_icon_name condition,
      description := get_description condition : DayForecast })
  { city := city.name,
    region := city.region,
    units := city.units,
    unit_symbol := if city.units == "imperial" then "°F" else "°C",
    timestamp := t.nowIso,
    forecasts := forecasts }

/-- Environment of `fetch_forecast`: the wall clock, the outcome of the
HTTP-fetch-and-decode step per city key (`Except.error` stands for any
exception raised by `requests.get`, `raise_for_status` or `.json()`), and the
parsed contents of `cache/{key}_forecast.json` when that file exists. -/
structure ApiEnv where
  time : TimeEnv
  apiResult : String → Except String ApiData
  cache : String → Option Forecast

/-- `fetch_forecast(city_key)` from `weather_api.py`.  `CITIES[city_key]`
happens before the `try`, so an unknown key raises `KeyError` to the caller.
Inside the `try`, an API failure falls back to the cache file if present, and
otherwise to `get_fallback_forecast` — whose `ValueError` is outside the
`try` block's protection and propagates.  On API success the processed
forecast is also written to the cache file (the write is not modelled; the
cache field of the environment stands for whatever a previous run persisted). -/
def fetch_forecast (env : ApiEnv) (city_key : String) : Except String Forecast :=
  match CITIES.find? (fun p => p.1 == city_key) with
  | none => Except.error ("KeyError: " ++ city_key)
  | some p =>
    match env.apiResult city_key with
    | Except.ok data => Except.ok (process_forecast env.time data p.2)
    | Except.error _ =>
      match env.cache city_key with
      | some cached => Except.ok cached
      | none => get_fallback_forecast p.2 env.time

/-- The spec's validity requirement on a returned forecast: all fields
present (guaranteed by the structure type), at most 3 day entries, and every
icon drawn from the fixed enum. -/
def ForecastInvariant (f : Forecast) : Prop :=
  f.forecasts.length ≤ 3 ∧ ∀ d ∈ f.forecasts, d.icon ∈ iconEnum

/-! ## Driver (`generate_weather.py`) -/

/-- Outcome of one city's `try` body in `generate_all_videos` (the body
`fetch_forecast; fetch_nearby_weather; generate_video` either returns the
output path or raises). -/
inductive RunOutcome where
  | success (path : String)
  | failure (err : String)
deriving DecidableEq, Repr

/-- `cities = ["austin", "london"]`. -/
def cities_list : List String := ["austin", "london"]

/-- `generate_all_videos()` from `generate_weather.py`: the per-city loop with
its `try/except` (a failure is printed and the loop continues), returning the
collected output paths and `len(generated) == len(cities)`. -/
def generate_all_videos (run : String → RunOutcome) : List String × Bool :=
  let generated := cities_list.foldl (fun acc ck =>
    match run ck with
    | RunOutcome.success p => acc ++ [p]
    | RunOutcome.failure _ => acc) []
  (generated, generated.length == cities_list.length)

/-- `sys.exit(0 if success else 1)` in the `__main__` block. -/
def main_exit_code (run : String → RunOutcome) : Nat :=
  if (generate_all_videos run).2 then 0 else 1

/-! ## Sample inputs (used by witnesses and counterexamples) -/

/-- A concrete render environment (one fixed font metric, fixed gradient
colors, one fixed wall-clock instant). -/
def sampleEnv : RenderEnv :=
  { textLen := fun s k => (s.length : Int) * (k : Int),
    gradColor := fun _ => Color.rgb 26 35 126,
    timeStr := "12:00:00 PM",
    dateStr := "MON JAN 05" }

/-- A concrete forecast with four day entries (one more than the renderer
shows). -/
def sampleForecast : Forecast :=
  { city := "Austin", region := "Metro", units := "imperial", unit_symbol := "°F",
    timestamp := "2026-01-05T12:00:00",
    forecasts :=
      [ { day_name := "THU", high := 84, low := 61, condition := "Thunderstorm",
          icon := "thunderstorm", description := "T'storms" },
        { day_name := "FRI", high := 80, low := 64, condition := "Clear",
          icon := "sun", description := "Sunny" },
        { day_name := "SAT", high := 78, low := 64, condition := "Clouds",
          icon := "clouds", description := "Cloudy" },
        { day_name := "SUN", high := 77, low := 60, condition := "Rain",
          icon := "rain", description := "Rainy" } ] }

/-- A concrete nearby-conditions list of length 4 (Austin's configuration). -/
def sampleNearby : List NearbyCondition :=
  [ { name := "Houston", lat := 29.7604, lon := -95.3698, temp := 70,
      condition := "Clouds", icon := "clouds" },
    { name := "Dallas", lat := 32.7767, lon := -96.7970, temp := 68,
      condition := "Clear", icon := "sun" },
    { name := "San Antonio", lat := 29.4241, lon := -98.4936, temp := 72,
      condition := "Rain", icon := "rain" },
    { name := "El Paso", lat := 31.7619, lon := -106.4850, temp := 65,
      condition := "Clouds", icon := "clouds" } ]

/-- A concrete per-city outcome map: Austin's pipeline raises, London's
succeeds. -/
def sampleRun : String → RunOutcome := fun ck =>
  if ck == "austin" then RunOutcome.failure "boom" else RunOutcome.success "LDNweather.mp4"

/-- A mid-month wall clock. -/
def sampleTimeEnv : TimeEnv :=
  { now := { year := 2026, month := 1, day := 15 },
    dayAbbrev := fun d => "D" ++ toString (dateKey d),
    nowIso := "2026-01-15T12:00:00" }

/-- A wall clock in the last two days of a month (January 30). -/
def sampleTimeEnvEnd : TimeEnv :=
  { now := { year := 2026, month := 1, day := 30 },
    dayAbbrev := fun d => "D" ++ toString (dateKey d),
    nowIso := "2026-01-30T12:00:00" }

/-- An arbitrary city configuration. -/
def sampleCity : City :=
  { lat := 0, lon := 0, name := "Testville", region := "Metro", units := "metric",
    nearby := [] }

/-- An API environment in which every HTTP fetch fails and no cache file
exists. -/
def sampleApiEnv : ApiEnv :=
  { time := sampleTimeEnv,
    apiResult := fun _ => Except.error "requests.exceptions.ConnectionError",
    cache := fun _ => none }

/-- An API environment in which the fetch succeeds with an empty item list. -/
def sampleApiEnvOk : ApiEnv :=
  { time := sampleTimeEnv,
    apiResult := fun _ => Except.ok { list := [] },
    cache := fun _ => none }

/-! ## Claims -/

/-- **C8.** For every condition string that is a key of `CONDITION_ICONS`,
`get_icon_name` returns the documented icon for that key; for every string not
in the mapping it returns `"clouds"`. -/
theorem c8_get_icon_name_mapping :
    (∀ p ∈ CONDITION_ICONS, get_icon_name p.1 = p.2)
    ∧ (∀ c : String, c ∉ CONDITION_ICONS.map Prod.fst → get_icon_name c = "clouds") := by
  constructor
  · decide
  · intro c hc
    unfold get_icon_name
    cases hf : CONDITION_ICONS.find? (fun p => p.1 == c) with
    | none => rfl
    | some p =>
      exfalso
      apply hc
      have hmem := List.mem_of_find?_eq_some hf
      have hkey := List.find?_some hf
      exact (beq_iff_eq.mp hkey) ▸ List.mem_map_of_mem Prod.fst hmem

/-- Witness for C8 at the concrete inputs `"Clear"` and `"NotACondition"`. -/
theorem c8_get_icon_name_mapping_witness :
    get_icon_name "Clear" = "sun" ∧ get_icon_name "NotACondition" = "clouds" :=
  ⟨c8_get_icon_name_mapping.1 ("Clear", "sun") (by decide),
   c8_get_icon_name_mapping.2 "NotACondition" (by decide)⟩

/-- **C2, counterexample.** The claim says an unknown icon kind produces the
same pixel output as `"clouds"`; in the code every `if` branch of
`draw_weather_icon` fails and nothing is drawn, so at the unknown kind
`"fog"` the op lists differ. -/
theorem c2_unknown_icon_counterexample :
    draw_weather_icon 100 100 "fog" ≠ draw_weather_icon 100 100 "clouds" := by
  decide

/-- **C2, amended.** For every icon-kind string not in the enum
{sun, clouds, rain, thunderstorm, snow}, `draw_weather_icon` draws nothing at
all (the surface is left unchanged) — not the clouds glyph and not an error. -/
theorem c2_unknown_icon_draws_nothing (cx cy : Int) (kind : String)
    (h : kind ∉ iconEnum) : draw_weather_icon cx cy kind = [] := by
  simp only [iconEnum, List.mem_cons, List.mem_singleton, not_or] at h
  obtain ⟨h1, h2, h3, h4, h5⟩ := h
  simp [draw_weather_icon, h1, h2, h3, h4, h5]

/-- Witness for C2's amended theorem at the concrete kind `"fog"`. -/
theorem c2_unknown_icon_draws_nothing_witness :
    draw_weather_icon 100 100 "fog" = [] :=
  c2_unknown_icon_draws_nothing 100 100 "fog" (by decide)

/-- **C5.** The concat edit list built by `generate_video` is exactly the
forecast frame with a 10-second duration, the ten map frames with a 1-second
duration each, then the final map frame repeated with no duration; the
durations listed (the terminal repeat contributing none) sum to 20 seconds. -/
theorem c5_render_plan_durations :
    concat_entries =
      [ ⟨"forecast.png", some 10⟩,
        ⟨"map_000.png", some 1⟩, ⟨"map_001.png", some 1⟩, ⟨"map_002.png", some 1⟩,
        ⟨"map_003.png", some 1⟩, ⟨"map_004.png", some 1⟩, ⟨"map_005.png", some 1⟩,
        ⟨"map_006.png", some 1⟩, ⟨"map_007.png", some 1⟩, ⟨"map_008.png", some 1⟩,
        ⟨"map_009.png", some 1⟩, ⟨"map_009.png", none⟩ ]
    ∧ (concat_entries.filterMap PlanEntry.duration).sum = 20 := by
  decide

/-- The highlight comparison unfolded: `i == highlight_idx - 1` over the
integers. -/
theorem is_highlighted_iff (i frame_num M : Nat) :
    is_highlighted i frame_num M = true ↔
      (i : Int) = ((frame_num % (M + 1) : Nat) : Int) - 1 := by
  simp [is_highlighted, highlight_idx]

/-- **C4.** In `generate_map_frame` with a nearby list of length `M`, entry
`i` is marked highlighted exactly when `i = (frame_num mod (M+1)) - 1` (Python
integer arithmetic); at `frame_num ≡ 0 (mod M+1)` no entry is highlighted,
otherwise exactly one index below `M` is, and the highlight advances by one
position per unit increase of `frame_num` while it stays inside the cycle. -/
theorem c4_highlight_index (nearby : List NearbyCondition) (frame_num : Nat) :
    (∀ i : Nat, is_highlighted i frame_num nearby.length = true ↔
        (i : Int) = ((frame_num % (nearby.length + 1) : Nat) : Int) - 1)
    ∧ (frame_num % (nearby.length + 1) = 0 →
        ∀ i : Nat, is_highlighted i frame_num nearby.length = false)
    ∧ (frame_num % (nearby.length + 1) ≠ 0 →
        ∃! i : Nat, i < nearby.length ∧ is_highlighted i frame_num nearby.length = true)
    ∧ (∀ i : Nat, is_highlighted i frame_num nearby.length = true →
        frame_num % (nearby.length + 1) < nearby.length →
        is_highlighted (i + 1) (frame_num + 1) nearby.length = true) := by
  set M := nearby.length with hM
  have hlt : frame_num % (M + 1) < M + 1 := Nat.mod_lt _ (Nat.succ_pos M)
  refine ⟨fun i => is_highlighted_iff i frame_num M, ?_, ?_, ?_⟩
  · intro h0 i
    rw [Bool.eq_false_iff]
    intro hcon
    have := (is_highlighted_iff i frame_num M).mp hcon
    rw [h0] at this
    omega
  · intro hne
    have h1 : 1 ≤ frame_num % (M + 1) := Nat.one_le_iff_ne_zero.mpr hne
    refine ⟨frame_num % (M + 1) - 1, ⟨by omega, ?_⟩, ?_⟩
    · rw [is_highlighted_iff]
      omega
    · intro j hj
      have := (is_highlighted_iff j frame_num M).mp hj.2
      omega
  · intro i hi hlt2
    have hval := (is_highlighted_iff i frame_num M).mp hi
    have hstep : (frame_num + 1) % (M + 1) = frame_num % (M + 1) + 1 := by
      rw [Nat.add_mod]
      have h1m : 1 % (M + 1) = 1 := Nat.mod_eq_of_lt (by omega)
      rw [h1m]
      exact Nat.mod_eq_of_lt (by omega)
    rw [is_highlighted_iff, hstep]
    omega

/-- Witness for C4 at the concrete length-4 list and frame index 7:
`7 mod 5 = 2`, so entry 1 is the highlighted one. -/
theorem c4_highlight_index_witness :
    is_highlighted 1 7 sampleNearby.length = true :=
  ((c4_highlight_index sampleNearby 7).1 1).mpr (by decide)

/-- **C7.** In `generate_all_videos`, a failure while processing one city is
caught and does not prevent the remaining cities: the collected outputs are
exactly those of the cities whose pipeline succeeded, and the process exit
status is 0 exactly when every city in the fixed list produced a video. -/
theorem c7_per_city_isolation (run : String → RunOutcome) :
    (generate_all_videos run).1 =
      cities_list.filterMap (fun ck =>
        match run ck with
        | RunOutcome.success p => some p
        | RunOutcome.failure _ => none)
    ∧ ((generate_all_videos run).2 = true ↔
        ∀ ck ∈ cities_list, ∃ p, run ck = RunOutcome.success p)
    ∧ (main_exit_code run = 0 ↔ (generate_all_videos run).2 = true) := by
  rcases h1 : run "austin" with p1 | e1 <;> rcases h2 : run "london" with p2 | e2 <;>
    simp [generate_all_videos, cities_list, main_exit_code, h1, h2]

/-- Witness for C7 at the concrete outcome map where Austin fails and London
succeeds: London's video is still produced, and the exit status is nonzero. -/
theorem c7_per_city_isolation_witness :
    (generate_all_videos sampleRun).1 = ["LDNweather.mp4"] := by
  rw [(c7_per_city_isolation sampleRun).1]
  decide

/-- **C1, counterexample.** The claim says the per-run temp directory is
removed by the end of every run, including when the encoder fails; in the code
the `except` handler re-raises before the `shutil.rmtree(temp_dir)` line, so
at a concrete failing run the directory is still present at the end. -/
theorem c1_cleanup_counterexample :
    (generate_video sampleEnv "austin" sampleForecast sampleNearby
        (EncResult.fail "boom")).2.tempDirFiles.isSome = true := by
  rfl

/-- **C1, amended.** `generate_video` removes the per-run temp directory at
the end of a run exactly when the encoder invocation succeeds; when the
encoder fails the exception propagates (with the encoder's stderr attached)
before the cleanup line, and the temp directory survives with all 12 files of
the run (the forecast frame, the 10 map frames and the concat file) still in
it. -/
theorem c1_cleanup_only_on_success (env : RenderEnv) (ck : String) (fc : Forecast)
    (nearby : List NearbyCondition) :
    (generate_video env ck fc nearby EncResult.ok).2 = ⟨none⟩
    ∧ ∀ e : String,
        (generate_video env ck fc nearby (EncResult.fail e)).1 =
          Except.error ("ffmpeg error: " ++ e)
        ∧ ∃ files, (generate_video env ck fc nearby (EncResult.fail e)).2 = ⟨some files⟩
            ∧ files.length = 12
            ∧ ("forecast.png", FileData.image (generate_forecast_frame env fc)) ∈ files
            ∧ ("concat.txt", FileData.plan concat_entries) ∈ files := by
  refine ⟨rfl, fun e => ⟨rfl, ⟨_, rfl, ?_, ?_, ?_⟩⟩⟩
  · simp
  · exact List.mem_cons_self _ _
  · simp

/-- Witness for C1's amended theorem at concrete inputs: a succeeding run
ends with the temp directory removed. -/
theorem c1_cleanup_only_on_success_witness :
    (generate_video sampleEnv "austin" sampleForecast sampleNearby EncResult.ok).2 =
      ⟨none⟩ :=
  (c1_cleanup_only_on_success sampleEnv "austin" sampleForecast sampleNearby).1

/-- **C6.** `generate_forecast_frame` issues exactly `min K 3` card-drawing
calls for a forecast with `K` day entries, the `i`-th at
`(30 + 200·i, 70)` with the `i`-th day; entries beyond the third are ignored
without error. -/
theorem c6_card_layout (fc : Forecast) :
    (forecastCardCalls fc).length = min fc.forecasts.length 3
    ∧ ∀ i : Nat, (forecastCardCalls fc)[i]? =
        (if i < 3 then fc.forecasts[i]? else none).map
          (fun d => (30 + (i : Int) * 200, 70, d)) := by
  constructor
  · simp [forecastCardCalls, Nat.min_comm]
  · intro i
    simp only [forecastCardCalls, List.getElem?_map, List.getElem?_enum, List.getElem?_take]
    cases h : fc.forecasts[i]? <;> split <;> simp

/-- Witness for C6 at the concrete 4-day forecast: exactly 3 cards, the
fourth day ignored, the third card at x = 430. -/
theorem c6_card_layout_witness :
    (forecastCardCalls sampleForecast).length = 3
    ∧ (forecastCardCalls sampleForecast)[3]? = none := by
  have h := c6_card_layout sampleForecast
  refine ⟨?_, ?_⟩
  · rw [h.1]; decide
  · rw [h.2 3]; decide

/-- **C9.** Frame composition is deterministic in its inputs, the wall clock
and the font/palette environment: two composition runs over equal inputs with
the same fixed environment produce pixel-identical op lists, for both the
forecast frame and any map frame. -/
theorem c9_frame_determinism (env₁ env₂ : RenderEnv) (fc₁ fc₂ : Forecast)
    (ck₁ ck₂ : String) (nb₁ nb₂ : List NearbyCondition) (k₁ k₂ : Nat)
    (he : env₁ = env₂) (hf : fc₁ = fc₂) (hc : ck₁ = ck₂) (hn : nb₁ = nb₂)
    (hk : k₁ = k₂) :
    generate_forecast_frame env₁ fc₁ = generate_forecast_frame env₂ fc₂
    ∧ generate_map_frame env₁ ck₁ nb₁ k₁ = generate_map_frame env₂ ck₂ nb₂ k₂ := by
  subst he hf hc hn hk
  exact ⟨rfl, rfl⟩

/-- Witness for C9 at concrete inputs and a concrete fixed environment. -/
theorem c9_frame_determinism_witness :
    generate_forecast_frame sampleEnv sampleForecast =
        generate_forecast_frame sampleEnv sampleForecast
    ∧ generate_map_frame sampleEnv "austin" sampleNearby 3 =
        generate_map_frame sampleEnv "austin" sampleNearby 3 :=
  c9_frame_determinism sampleEnv sampleEnv sampleForecast sampleForecast
    "austin" "austin" sampleNearby sampleNearby 3 3 rfl rfl rfl rfl rfl

/-- When the whole three-day window fits in the current month,
`get_fallback_forecast` succeeds, with the explicitly computed value. -/
theorem fallback_ok_spec (city : City) (t : TimeEnv) (h : ValidDate t.now)
    (h2 : t.now.day + 2 ≤ daysInMonth t.now.year t.now.month) :
    get_fallback_forecast city t = Except.ok
      { city := city.name,
        region := city.region,
        units := city.units,
        unit_symbol := if city.units == "imperial" then "°F" else "°C",
        timestamp := t.nowIso,
        forecasts :=
          [fallbackDayEntry city t t.now,
           fallbackDayEntry city t { t.now with day := t.now.day + 1 },
           fallbackDayEntry city t { t.now with day := t.now.day + 2 }] } := by
  obtain ⟨hm1, hm2, hd1, hd2⟩ := h
  unfold get_fallback_forecast date_replace_day
  rw [if_pos (⟨by omega, by omega⟩ :
        1 ≤ t.now.day + 0 ∧ t.now.day + 0 ≤ daysInMonth t.now.year t.now.month),
      if_pos (⟨by omega, by omega⟩ :
        1 ≤ t.now.day + 1 ∧ t.now.day + 1 ≤ daysInMonth t.now.year t.now.month),
      if_pos (⟨by omega, by omega⟩ :
        1 ≤ t.now.day + 2 ∧ t.now.day + 2 ≤ daysInMonth t.now.year t.now.month)]
  rfl

/-- When the three-day window overruns the current month,
`get_fallback_forecast` raises `ValueError`. -/
theorem fallback_err_spec (city : City) (t : TimeEnv) (h : ValidDate t.now)
    (h2 : daysInMonth t.now.year t.now.month < t.now.day + 2) :
    ∃ e, get_fallback_forecast city t = Except.error e := by
  obtain ⟨hm1, hm2, hd1, hd2⟩ := h
  unfold get_fallback_forecast date_replace_day
  by_cases hc : t.now.day + 1 ≤ daysInMonth t.now.year t.now.month
  · refine ⟨"ValueError: day is out of range for month", ?_⟩
    rw [if_pos (⟨by omega, by omega⟩ :
          1 ≤ t.now.day + 0 ∧ t.now.day + 0 ≤ daysInMonth t.now.year t.now.month),
        if_pos (⟨by omega, hc⟩ :
          1 ≤ t.now.day + 1 ∧ t.now.day + 1 ≤ daysInMonth t.now.year t.now.month),
        if_neg (by omega :
          ¬(1 ≤ t.now.day + 2 ∧ t.now.day + 2 ≤ daysInMonth t.now.year t.now.month))]
    rfl
  · refine ⟨"ValueError: day is out of range for month", ?_⟩
    rw [if_pos (⟨by omega, by omega⟩ :
          1 ≤ t.now.day + 0 ∧ t.now.day + 0 ≤ daysInMonth t.now.year t.now.month),
        if_neg (by omega :
          ¬(1 ≤ t.now.day + 1 ∧ t.now.day + 1 ≤ daysInMonth t.now.year t.now.month))]
    rfl

/-- **C10.** `get_fallback_forecast` returns normally — with exactly 3
entries for consecutive days — precisely when the current day-of-month plus 2
is still a valid day of the current month; its `now.replace(day=now.day + i)`
arithmetic never rolls into the next month, so on the last two days of a
month the call raises `ValueError` instead of returning synthesized data. -/
theorem c10_fallback_month_end (city : City) (t : TimeEnv) (h : ValidDate t.now) :
    (t.now.day + 2 ≤ daysInMonth t.now.year t.now.month →
      ∃ f, get_fallback_forecast city t = Except.ok f
        ∧ f.forecasts.length = 3
        ∧ f.forecasts.map DayForecast.day_name =
            [t.dayAbbrev t.now,
             t.dayAbbrev { t.now with day := t.now.day + 1 },
             t.dayAbbrev { t.now with day := t.now.day + 2 }])
    ∧ (daysInMonth t.now.year t.now.month < t.now.day + 2 →
      ∃ e, get_fallback_forecast city t = Except.error e) := by
  constructor
  · intro h2
    exact ⟨_, fallback_ok_spec city t h h2, rfl, rfl⟩
  · intro h2
    exact fallback_err_spec city t h h2

/-- Witness for C10: on 2026-01-30 (31-day month, `30 + 2 > 31`) the call
raises; on 2026-01-15 it returns synthesized data. -/
theorem c10_fallback_month_end_witness :
    (∃ e, get_fallback_forecast sampleCity sampleTimeEnvEnd = Except.error e)
    ∧ (∃ f, get_fallback_forecast sampleCity sampleTimeEnv = Except.ok f) := by
  refine ⟨(c10_fallback_month_end sampleCity sampleTimeEnvEnd (by decide)).2 (by decide), ?_⟩
  obtain ⟨f, hf, -, -⟩ :=
    (c10_fallback_month_end sampleCity sampleTimeEnv (by decide)).1 (by decide)
  exact ⟨f, hf⟩

/-- `get_icon_name` only ever produces members of the fixed icon enum. -/
theorem get_icon_name_mem (c : String) : get_icon_name c ∈ iconEnum := by
  unfold get_icon_name
  cases hf : CONDITION_ICONS.find? (fun p => p.1 == c) with
  | none => decide
  | some p =>
    have hmem := List.mem_of_find?_eq_some hf
    fin_cases hmem <;> decide

/-- `process_forecast` always yields a forecast satisfying the invariant:
at most 3 days (it takes the first 3 sorted day keys) and icons from the
enum (every icon comes from `get_icon_name`). -/
theorem process_forecast_invariant (t : TimeEnv) (data : ApiData) (city : City) :
    ForecastInvariant (process_forecast t data city) := by
  constructor
  · simp [process_forecast, ForecastInvariant]
  · intro d hd
    simp only [process_forecast, List.mem_map] at hd
    obtain ⟨k, -, rfl⟩ := hd
    exact get_icon_name_mem _

/-- **C3, counterexample.** The claim says `fetch_forecast` never raises for
any city key; `CITIES[city_key]` is evaluated before the `try` block, so an
unknown key raises `KeyError` to the caller. -/
theorem c3_fetch_counterexample :
    fetch_forecast sampleApiEnv "paris" = Except.error "KeyError: paris" := by
  rfl

/-- **C3, amended.** For city keys present in `CITIES`, `fetch_forecast`
returns a populated `Forecast` (all fields present, at most 3 day entries,
icons from the fixed enum) whenever the API fetch succeeds, or a cached
forecast from a prior run exists, or the fallback's day arithmetic stays
within the current month; outside those cases it can raise (`KeyError` for an
unknown key, the fallback's `ValueError` at month end). -/
theorem c3_fetch_forecast_total (env : ApiEnv) (ck : String)
    (hknown : (CITIES.find? (fun p => p.1 == ck)).isSome = true)
    (hcache : ∀ f, env.cache ck = some f → ForecastInvariant f)
    (havail : (∃ d, env.apiResult ck = Except.ok d)
      ∨ (∃ f, env.cache ck = some f)
      ∨ (ValidDate env.time.now
          ∧ env.time.now.day + 2 ≤ daysInMonth env.time.now.year env.time.now.month)) :
    ∃ f, fetch_forecast env ck = Except.ok f ∧ ForecastInvariant f := by
  obtain ⟨p, hp⟩ := Option.isSome_iff_exists.mp hknown
  unfold fetch_forecast
  rw [hp]
  cases ha : env.apiResult ck with
  | ok d => exact ⟨_, rfl, process_forecast_invariant _ _ _⟩
  | error e =>
    cases hc : env.cache ck with
    | some cached => exact ⟨cached, rfl, hcache cached hc⟩
    | none =>
      rcases havail with ⟨d, hd⟩ | ⟨f, hf⟩ | ⟨hval, hdim⟩
      · rw [ha] at hd
        simp at hd
      · rw [hc] at hf
        simp at hf
      · refine ⟨_, fallback_ok_spec p.2 env.time hval hdim, by simp, ?_⟩
        intro d hd
        simp only [List.mem_cons, List.not_mem_nil, or_false] at hd
        rcases hd with rfl | rfl | rfl <;> simp [fallbackDayEntry, iconEnum]

/-- Witness for C3's amended theorem: a known key with a succeeding API fetch
returns a valid forecast. -/
theorem c3_fetch_forecast_total_witness :
    ∃ f, fetch_forecast sampleApiEnvOk "austin" = Except.ok f ∧ ForecastInvariant f :=
  c3_fetch_forecast_total sampleApiEnvOk "austin" (by decide)
    (by intro f hf; simp [sampleApiEnvOk] at hf)
    (Or.inl ⟨{ list := [] }, rfl⟩)

end WeatherChannel
